import Mathlib

/-!
Shallow embedding of the relay/broker subsystem of `src/streamosc.py`
(wearethehive/massdevserver).

The server keeps its whole state in module-level globals:
`connected_clients`, `connection_tracker`, `registered_receivers`,
`message_queue`, `is_sending`, `send_thread`, `destinations`,
`current_addresses`, `interval_min`, `interval_max`, and the constant
`API_KEYS`.  We gather these into a `Server` structure.  Python dicts are
embedded as association lists (`List (String × _)`) with the usual
lookup/update/delete operations; Python dicts have unique keys and keep
insertion order, which the association-list operations reproduce.

Socket.IO emissions (`emit` / `socketio.emit`) and UDP sends
(`client.send_message`) are modelled as a list of `Event`s returned next to
the updated state: each handler becomes a pure function
`Server → input → Server × List Event`.
-/

namespace StreamOSC

/-- A UDP destination, one element of the `destinations` global
(`{"ip": ..., "port": ...}`). -/
structure Dest where
  ip : String
  port : Nat
  deriving DecidableEq, Repr

/-- The `message_data` dict built in `send_random_osc_messages` and
`handle_send_value`: `{'address': ..., 'value': ..., 'timestamp': ...}`.
Timestamps (`time.time()`) are abstracted to `Nat`; numeric values to `Rat`. -/
structure Msg where
  address : String
  value : Rat
  timestamp : Nat
  deriving DecidableEq, Repr

/-- One entry of `registered_receivers` (built in `handle_register_receiver`,
src/streamosc.py lines 577-584): name, client_id, api_key, connected_at,
active flag, socket_id. -/
structure Receiver where
  name : String
  clientId : String
  apiKey : String
  connectedAt : String
  active : Bool
  socketId : String
  deriving DecidableEq, Repr

/-- One entry of `connection_tracker` (src/streamosc.py lines 334-337):
`connected_at` ISO string and `last_ping` timestamp. -/
structure ConnInfo where
  connectedAt : String
  lastPing : Nat
  deriving DecidableEq, Repr

/-- The mutable global state of src/streamosc.py.  `sendThreads` counts the
currently running `send_random_osc_messages` loops (the `send_thread`
global together with `threading.Thread(...).start()` in
`handle_start_sending` and `send_thread.join()` in `handle_stop_sending`). -/
structure Server where
  connectedClients : List String
  connectionTracker : List (String × ConnInfo)
  registeredReceivers : List (String × Receiver)
  messageQueue : List (String × List Msg)
  isSending : Bool
  sendThreads : Nat
  destinations : List Dest
  currentAddresses : List String
  intervalMin : Rat
  intervalMax : Rat
  apiKeys : List String
  deriving DecidableEq, Repr

/-- Socket.IO emissions and UDP sends performed by the handlers. -/
inductive Event where
  | statusUpdate (status : String) (message : String) (sending : Bool)
  | clientListUpdate (clients : List String)
  | receiverListUpdate (ids : List String)
  | receiverListUpdated (ids : List String)
  | registrationConfirmed (receiverId : String)
  | registrationFailed (error : String)
  | unregistrationConfirmed (message : String)
  | unregistrationFailed (error : String)
  | sendFailed (error : String)
  | oscMessage (m : Msg)
  | relayMessage (m : Msg) (room : String)
  | oscSend (ip : String) (port : Nat) (address : String) (value : Rat)
  deriving DecidableEq, Repr

/-- Dict lookup: `d.get(k)` / `k in d`. -/
def alookup {α : Type} : List (String × α) → String → Option α
  | [], _ => none
  | (k', v) :: t, k => if k' = k then some v else alookup t k

/-- Dict write `d[k] = v`: replaces the value at an existing key in place,
otherwise appends (Python dicts keep the original position on overwrite and
append new keys at the end). -/
def aset {α : Type} : List (String × α) → String → α → List (String × α)
  | [], k, v => [(k, v)]
  | (k', v') :: t, k, v =>
    if k' = k then (k, v) :: t else (k', v') :: aset t k v

/-- Dict delete `del d[k]` (removes the first occurrence of the key). -/
def aerase {α : Type} : List (String × α) → String → List (String × α)
  | [], _ => []
  | (k', v') :: t, k => if k' = k then t else (k', v') :: aerase t k

/-- The `MAX_QUEUE_SIZE = 100` constant (src/streamosc.py line 179). -/
def MAX_QUEUE_SIZE : Nat := 100

/-- The backlog append of src/streamosc.py lines 261-263 (and 695-697):
`queue.append(message_data); if len(queue) > MAX_QUEUE_SIZE: queue.pop(0)`. -/
def enqueueMsg (q : List Msg) (m : Msg) : List Msg :=
  let q' := q ++ [m]
  if MAX_QUEUE_SIZE < q'.length then q'.tail else q'

/-- The credential test shared by `handle_start_sending`,
`handle_stop_sending`, `handle_unregister_receiver` and `handle_send_value`:
`api_key = data.get('api_key'); if not api_key or api_key not in API_KEYS`.
Python `not api_key` is true for a missing key (None) and for the empty
string. -/
def authMissingOrInvalid (keys : List String) (k : Option String) : Bool :=
  let v := k.getD ""
  v = "" || !(keys.contains v)

/-- The receiver fan-out loop of `send_random_osc_messages`
(src/streamosc.py lines 250-263) and `handle_send_value` (lines 688-697):
for each registered receiver, an active one gets a direct `relay_message`
to its socket_id room, an inactive one gets the message appended to its
bounded backlog in `message_queue`.  Returns the updated `message_queue`
and the emitted relay events. -/
def fanout : List (String × Receiver) → List (String × List Msg) → Msg →
    List (String × List Msg) × List Event
  | [], mq, _ => (mq, [])
  | (rid, r) :: rest, mq, m =>
    if r.active then
      let p := fanout rest mq m
      (p.1, Event.relayMessage m r.socketId :: p.2)
    else
      fanout rest (aset mq rid (enqueueMsg ((alookup mq rid).getD []) m)) m

/-- `handle_connect` (src/streamosc.py lines 327-356): records the
connection in `connection_tracker`, adds the sid to `connected_clients`,
and emits a `status_update` plus a `client_list_update`.  There is no
credential check of any kind on this path. -/
def handle_connect (s : Server) (clientId : String) (nowIso : String)
    (now : Nat) : Server × List Event :=
  let tracker := aset s.connectionTracker clientId ⟨nowIso, now⟩
  let connected := if s.connectedClients.contains clientId then
    s.connectedClients else s.connectedClients ++ [clientId]
  ({ s with connectionTracker := tracker, connectedClients := connected },
   [Event.statusUpdate "connected" "Connected to server" s.isSending,
    Event.clientListUpdate connected])

/-- `handle_disconnect` (src/streamosc.py lines 358-375): drops the tracker
entry, discards the sid from `connected_clients`, and *deletes*
(`del registered_receivers[receiver_id]`) every directory entry whose
`client_id` is the disconnecting sid; with unique dict keys the loop of
per-key deletes is exactly a filter. -/
def handle_disconnect (s : Server) (clientId : String) : Server × List Event :=
  let tracker := aerase s.connectionTracker clientId
  let connected := s.connectedClients.filter (fun c => c ≠ clientId)
  let receivers := s.registeredReceivers.filter
    (fun p => p.2.clientId ≠ clientId)
  ({ s with
      connectionTracker := tracker,
      connectedClients := connected,
      registeredReceivers := receivers },
   [Event.clientListUpdate connected])

/-- `handle_ping` (src/streamosc.py lines 377-382): refreshes `last_ping`
for a tracked connection. -/
def handle_ping (s : Server) (clientId : String) (now : Nat) : Server :=
  match alookup s.connectionTracker clientId with
  | none => s
  | some ci =>
    { s with
        connectionTracker := aset s.connectionTracker clientId ⟨ci.connectedAt, now⟩ }

/-- The `data` dict of a `start_sending` request (src/streamosc.py lines
439-466): `data.get('destinations', [])`, `data.get('addresses', [])`,
`data.get('interval_min', interval_min)`, `data.get('interval_max',
interval_max)`. -/
structure StartData where
  apiKey : Option String
  receiverId : Option String
  destinations : List Dest
  addresses : List String
  intervalMin : Option Rat
  intervalMax : Option Rat
  deriving DecidableEq, Repr

/-- `handle_start_sending` (src/streamosc.py lines 433-519): rejects a
missing/invalid api_key, then an unknown receiver_id; if not already
sending it applies the non-empty config overrides, flips `is_sending`,
spawns one generator thread and emits two `started` status updates
(broadcast plus per-caller confirmation); otherwise it emits the single
`info` "already in progress" update and changes nothing. -/
def handle_start_sending (s : Server) (d : StartData) : Server × List Event :=
  if authMissingOrInvalid s.apiKeys d.apiKey then
    (s, [Event.statusUpdate "error" "Unauthorized" s.isSending])
  else if d.receiverId.getD "" = "" ||
      (alookup s.registeredReceivers (d.receiverId.getD "")).isNone then
    (s, [Event.statusUpdate "error" "Invalid receiver ID" s.isSending])
  else if !s.isSending then
    let dests := if d.destinations.isEmpty then s.destinations
      else d.destinations
    let addrs := if d.addresses.isEmpty then s.currentAddresses
      else d.addresses
    ({ s with
        destinations := dests,
        currentAddresses := addrs,
        intervalMin := d.intervalMin.getD s.intervalMin,
        intervalMax := d.intervalMax.getD s.intervalMax,
        isSending := true,
        sendThreads := s.sendThreads + 1 },
     [Event.statusUpdate "started" "OSC message sending started" true,
      Event.statusUpdate "started" "OSC message sending started" true])
  else
    (s, [Event.statusUpdate "info"
      "OSC message sending already in progress" true])

/-- `handle_stop_sending` (src/streamosc.py lines 521-549): rejects a
missing/invalid api_key; while sending it clears `is_sending`, joins the
generator thread and broadcasts the `stopped` status; while already stopped
it only logs — it emits nothing at all. -/
def handle_stop_sending (s : Server) (apiKey : Option String) :
    Server × List Event :=
  if authMissingOrInvalid s.apiKeys apiKey then
    (s, [Event.statusUpdate "error" "Unauthorized" s.isSending])
  else if s.isSending then
    ({ s with isSending := false, sendThreads := 0 },
     [Event.statusUpdate "stopped" "OSC message sending stopped" false])
  else
    (s, [])

/-- `handle_register_receiver` (src/streamosc.py lines 551-612):
`api_key = data.get('api_key', '')` is checked against `API_KEYS`; the
client must still be in `connection_tracker`; then a fresh
`receiver_id = str(uuid.uuid4())` (passed here as `newId`, since the
generated id is external input to the pure model) is bound to a record with
`active = True` and `socket_id = client_id`, and three events are emitted.
The handler never touches `message_queue`. -/
def handle_register_receiver (s : Server) (clientId : String) (name : String)
    (apiKey : String) (newId : String) : Server × List Event :=
  if !(s.apiKeys.contains apiKey) then
    (s, [Event.registrationFailed "Invalid API key"])
  else
    match alookup s.connectionTracker clientId with
    | none => (s, [Event.registrationFailed "Connection lost"])
    | some ci =>
      let receivers := aset s.registeredReceivers newId
        ⟨name, clientId, apiKey, ci.connectedAt, true, clientId⟩
      ({ s with registeredReceivers := receivers },
       [Event.registrationConfirmed newId,
        Event.statusUpdate "connected" "Connected to server" s.isSending,
        Event.receiverListUpdate (receivers.map (fun p => p.1))])

/-- `handle_unregister_receiver` (src/streamosc.py lines 614-654): rejects
a missing/invalid api_key, then an unknown receiver_id; otherwise it
deletes the directory entry (`del registered_receivers[receiver_id]`),
broadcasts the updated list and confirms.  `message_queue` is not
touched. -/
def handle_unregister_receiver (s : Server) (apiKey : Option String)
    (receiverId : Option String) : Server × List Event :=
  if authMissingOrInvalid s.apiKeys apiKey then
    (s, [Event.unregistrationFailed "Unauthorized"])
  else if receiverId.getD "" = "" ||
      (alookup s.registeredReceivers (receiverId.getD "")).isNone then
    (s, [Event.unregistrationFailed "Invalid receiver ID"])
  else
    let receivers := aerase s.registeredReceivers (receiverId.getD "")
    ({ s with registeredReceivers := receivers },
     [Event.receiverListUpdated (receivers.map (fun p => p.1)),
      Event.unregistrationConfirmed "Successfully unregistered"])

/-- `handle_send_value` (src/streamosc.py lines 656-697): rejects a
missing/invalid api_key; otherwise sends the OSC message to every UDP
destination, broadcasts `osc_message`, and runs the receiver fan-out
(direct `relay_message` for active receivers, bounded backlog for inactive
ones). -/
def handle_send_value (s : Server) (apiKey : Option String) (address : String)
    (value : Rat) (now : Nat) : Server × List Event :=
  if authMissingOrInvalid s.apiKeys apiKey then
    (s, [Event.sendFailed "Unauthorized"])
  else
    let m : Msg := ⟨address, value, now⟩
    let p := fanout s.registeredReceivers s.messageQueue m
    ({ s with messageQueue := p.1 },
     s.destinations.map (fun dst => Event.oscSend dst.ip dst.port address value)
       ++ [Event.oscMessage m] ++ p.2)

/-- One iteration of the `send_random_osc_messages` loop body
(src/streamosc.py lines 228-266): the randomly chosen address is external
input, the value is the fixed `1.0`; UDP sends, the `osc_message`
broadcast, and the receiver fan-out are as in `handle_send_value`. -/
def generatorIteration (s : Server) (address : String) (now : Nat) :
    Server × List Event :=
  let m : Msg := ⟨address, 1, now⟩
  let p := fanout s.registeredReceivers s.messageQueue m
  ({ s with messageQueue := p.1 },
   s.destinations.map (fun dst => Event.oscSend dst.ip dst.port address 1)
     ++ [Event.oscMessage m] ++ p.2)

/-- The stale-client computation of `check_connections` (src/streamosc.py
lines 720-725): tracked connections whose `last_ping` is more than 30
seconds old. -/
def staleClients (s : Server) (now : Nat) : List String :=
  (s.connectionTracker.filter (fun p => 30 < now - p.2.lastPing)).map
    (fun p => p.1)

/-- `check_connections` (src/streamosc.py lines 717-748): the periodic
staleness sweep removes stale clients from `connected_clients` and
`connection_tracker` and *deletes* (`del registered_receivers[...]`) every
receiver owned by a stale client; update events are emitted only when
something was stale. -/
def check_connections (s : Server) (now : Nat) : Server × List Event :=
  let stale := staleClients s now
  let connected := s.connectedClients.filter (fun c => !(stale.contains c))
  let tracker := s.connectionTracker.filter (fun p => !(stale.contains p.1))
  let receivers := s.registeredReceivers.filter
    (fun p => !(stale.contains p.2.clientId))
  ({ s with
      connectedClients := connected,
      connectionTracker := tracker,
      registeredReceivers := receivers },
   if stale.isEmpty then []
   else [Event.clientListUpdate connected,
     Event.receiverListUpdate (receivers.map (fun p => p.1))])

/-- The default `OSC_ADDRESSES` pool (src/streamosc.py lines 149-164). -/
def OSC_ADDRESSES : List String :=
  ["/mass/tile1", "/mass/tile2", "/mass/tile3", "/mass/tile4",
   "/mass/tile5", "/mass/tile6", "/mass/tile7", "/mass/tile8",
   "/mass/tile9", "/mass/tile10", "/mass/tile11", "/mass/tile12",
   "/mass/tile13", "/mass/tile14"]

/-- The state of src/streamosc.py at module load: empty registries and
queues, generator stopped, default destination `127.0.0.1:57120`,
`interval_min = 0.5`, `interval_max = 3.0`, and the configured API keys. -/
def initServer (keys : List String) : Server :=
  { connectedClients := [], connectionTracker := [],
    registeredReceivers := [], messageQueue := [],
    isSending := false, sendThreads := 0,
    destinations := [⟨"127.0.0.1", 57120⟩],
    currentAddresses := OSC_ADDRESSES,
    intervalMin := 1/2, intervalMax := 3, apiKeys := keys }

/-- One server transition: any Socket.IO handler invoked with arbitrary
input, one generator-loop iteration, or one staleness sweep. -/
inductive Step : Server → Server → Prop where
  | connect (s : Server) (cid iso : String) (now : Nat) :
      Step s (handle_connect s cid iso now).1
  | disconnect (s : Server) (cid : String) :
      Step s (handle_disconnect s cid).1
  | ping (s : Server) (cid : String) (now : Nat) :
      Step s (handle_ping s cid now)
  | register (s : Server) (cid name key newId : String) :
      Step s (handle_register_receiver s cid name key newId).1
  | unregister (s : Server) (key rid : Option String) :
      Step s (handle_unregister_receiver s key rid).1
  | start (s : Server) (d : StartData) :
      Step s (handle_start_sending s d).1
  | stop (s : Server) (key : Option String) :
      Step s (handle_stop_sending s key).1
  | sendValue (s : Server) (key : Option String) (addr : String) (v : Rat)
      (now : Nat) : Step s (handle_send_value s key addr v now).1
  | generate (s : Server) (addr : String) (now : Nat) :
      Step s (generatorIteration s addr now).1
  | sweep (s : Server) (now : Nat) :
      Step s (check_connections s now).1

/-- States reachable from the freshly loaded module with a fixed key set. -/
inductive Reachable (keys : List String) : Server → Prop where
  | init : Reachable keys (initServer keys)
  | step (s s' : Server) : Reachable keys s → Step s s' → Reachable keys s'

/-! Concrete states used to evaluate the handlers on explicit inputs. -/

/-- A registered receiver owned by connection `c1`. -/
def exReceiver : Receiver := ⟨"Display-1", "c1", "k", "t0", true, "c1"⟩

/-- A sample relayed message. -/
def exMsg : Msg := ⟨"/mass/tile1", 1, 5⟩

/-- A server with one live connection `c1` owning receiver `r1`, a backlog
entry queued under `r1`, generator stopped, and the single API key `k`. -/
def exServer : Server :=
  { connectedClients := ["c1"],
    connectionTracker := [("c1", ⟨"t0", 0⟩)],
    registeredReceivers := [("r1", exReceiver)],
    messageQueue := [("r1", [exMsg])],
    isSending := false, sendThreads := 0,
    destinations := [⟨"127.0.0.1", 57120⟩],
    currentAddresses := OSC_ADDRESSES,
    intervalMin := 1/2, intervalMax := 3, apiKeys := ["k"] }

/-- A server with one live connection `c1`, no receivers, and a stranded
backlog queued under id `r9`. -/
def exServerQ : Server :=
  { exServer with registeredReceivers := [], messageQueue := [("r9", [exMsg])] }

/-! Helper lemmas about the association-list operations. -/

theorem alookup_aset_self {α : Type} (l : List (String × α)) (k : String)
    (v : α) : alookup (aset l k v) k = some v := by
  induction l with
  | nil => simp [aset, alookup]
  | cons hd t ih =>
    obtain ⟨k', v'⟩ := hd
    by_cases h : k' = k
    · simp [aset, alookup, h]
    · simp [aset, alookup, h, ih]

theorem mem_aset {α : Type} (l : List (String × α)) (k : String) (v : α)
    (p : String × α) (hp : p ∈ aset l k v) : p ∈ l ∨ p = (k, v) := by
  induction l with
  | nil => simp [aset] at hp; right; exact hp
  | cons hd t ih =>
    obtain ⟨k', v'⟩ := hd
    by_cases h : k' = k
    · simp [aset, h] at hp
      rcases hp with hp | hp
      · right; simpa using hp
      · left; exact List.mem_cons_of_mem _ hp
    · simp [aset, h] at hp
      rcases hp with hp | hp
      · left; simp [hp]
      · rcases ih hp with hp' | hp'
        · left; exact List.mem_cons_of_mem _ hp'
        · right; exact hp'

theorem mem_aerase {α : Type} (l : List (String × α)) (k : String)
    (p : String × α) (hp : p ∈ aerase l k) : p ∈ l := by
  induction l with
  | nil => simp [aerase] at hp
  | cons hd t ih =>
    obtain ⟨k', v'⟩ := hd
    by_cases h : k' = k
    · simp [aerase, h] at hp
      exact List.mem_cons_of_mem _ hp
    · simp [aerase, h] at hp
      rcases hp with hp | hp
      · simp [hp]
      · exact List.mem_cons_of_mem _ (ih hp)

/-! C1 — the spec says a closing or stale connection leaves its receivers in
the directory with `active = false`; the code instead runs
`del registered_receivers[receiver_id]` on both paths. -/

/-- C1 counterexample: on the concrete server `exServer`, connection `c1`
owns receiver `r1`; after `handle_disconnect` (and likewise after a
staleness sweep at time 100) the directory entry for `r1` is gone
entirely — it is not retained with `active = false` as the claim states. -/
theorem c1_counterexample :
    (alookup exServer.registeredReceivers "r1").isSome = true ∧
    alookup (handle_disconnect exServer "c1").1.registeredReceivers "r1"
      = none ∧
    alookup (check_connections exServer 100).1.registeredReceivers "r1"
      = none := by
  refine ⟨rfl, ?_, ?_⟩ <;> decide

/-- C1 (amended): on transport close and on the periodic staleness sweep,
every receiver owned by the closing (resp. stale) connection is deleted
outright from `registered_receivers`; entries owned by other connections
are kept unchanged, and no `active` flag is ever flipped. -/
theorem c1_amended_disconnect_and_sweep_delete (s : Server) (cid : String)
    (now : Nat) :
    (handle_disconnect s cid).1.registeredReceivers
      = s.registeredReceivers.filter (fun p => p.2.clientId ≠ cid) ∧
    (check_connections s now).1.registeredReceivers
      = s.registeredReceivers.filter
          (fun p => !((staleClients s now).contains p.2.clientId)) :=
  ⟨rfl, rfl⟩

/-! C2 — the spec says a successful registration flushes and clears the
backlog under the new receiver id; the code's `handle_register_receiver`
never reads or writes `message_queue`. -/

/-- C2 counterexample: on `exServerQ` a backlog `[exMsg]` sits under id
`r9`; a successful registration that assigns exactly the id `r9` emits its
confirmation but delivers nothing from the backlog, and the queue under
`r9` is still `[exMsg]` afterwards — not cleared as the claim states. -/
theorem c2_counterexample :
    (handle_register_receiver exServerQ "c1" "Display-1" "k" "r9").2
      = [Event.registrationConfirmed "r9",
         Event.statusUpdate "connected" "Connected to server" false,
         Event.receiverListUpdate ["r9"]] ∧
    alookup
      (handle_register_receiver exServerQ "c1" "Display-1" "k" "r9").1.messageQueue
      "r9" = some [exMsg] := by
  constructor <;> decide

/-- Delivery events to a receiver's room. -/
def isRelayEvent : Event → Bool
  | Event.relayMessage _ _ => true
  | _ => false

/-- C2 (amended): registration never interacts with the backlog —
`handle_register_receiver` leaves `message_queue` exactly unchanged and
emits no `relay_message` delivery on any path, so no queued message is
flushed and no queue is cleared by a register call. -/
theorem c2_amended_register_ignores_backlog (s : Server)
    (cid name apiKey newId : String) :
    (handle_register_receiver s cid name apiKey newId).1.messageQueue
      = s.messageQueue ∧
    (handle_register_receiver s cid name apiKey newId).2.filter isRelayEvent
      = [] := by
  unfold handle_register_receiver
  split
  · exact ⟨rfl, rfl⟩
  · cases alookup s.connectionTracker cid with
    | none => exact ⟨rfl, rfl⟩
    | some ci => exact ⟨rfl, rfl⟩

/-! C4 — the spec requires a credential in a first auth frame and rejection
of the handshake on an invalid one; the code's `handle_connect` takes no
credential at all and admits every connection. -/

/-- C4 counterexample: connecting to a fresh server carries no credential
and cannot be rejected: the connection is admitted into
`connected_clients`, the emitted events are the `connected` status update
and the client-list broadcast — no `Invalid credential` error exists and
the connection is not terminated. -/
theorem c4_counterexample :
    (handle_connect (initServer ["k"]) "c1" "t0" 0).1.connectedClients
      = ["c1"] ∧
    (handle_connect (initServer ["k"]) "c1" "t0" 0).2
      = [Event.statusUpdate "connected" "Connected to server" false,
         Event.clientListUpdate ["c1"]] ∧
    (handle_connect (initServer ["k"]) "c1" "t0" 0).1.registeredReceivers
      = [] := by
  refine ⟨?_, ?_, ?_⟩ <;> decide

/-- C4 (amended): `handle_connect` performs no credential check of any
kind: every connecting client is admitted to `connected_clients` and the
connection tracker, receives the `connected` status update followed by the
client-list broadcast, and no receiver is created at connect time.
Credential validation happens only inside the individual operation
handlers. -/
theorem c4_amended_connect_admits_all (s : Server) (cid iso : String)
    (now : Nat) :
    (handle_connect s cid iso now).1.connectedClients.contains cid = true ∧
    (handle_connect s cid iso now).1.registeredReceivers
      = s.registeredReceivers ∧
    (handle_connect s cid iso now).2
      = [Event.statusUpdate "connected" "Connected to server" s.isSending,
         Event.clientListUpdate (handle_connect s cid iso now).1.connectedClients] := by
  refine ⟨?_, rfl, rfl⟩
  unfold handle_connect
  cases hc : s.connectedClients.contains cid with
  | true => simpa [hc] using hc
  | false => simp [hc]

/-! C8 — the spec says unregister discards the receiver's backlog; the code
deletes only the directory entry and leaves `message_queue` untouched. -/

/-- C8 counterexample: on `exServer` receiver `r1` has backlog `[exMsg]`;
a successful unregister with the valid key deletes the directory entry but
the backlog under `r1` still holds `[exMsg]` afterwards — not discarded as
the claim states. -/
theorem c8_counterexample :
    (handle_unregister_receiver exServer (some "k") (some "r1")).1.registeredReceivers
      = [] ∧
    alookup
      (handle_unregister_receiver exServer (some "k") (some "r1")).1.messageQueue
      "r1" = some [exMsg] := by
  constructor <;> decide

/-- C8 (amended): a successful unregister call with a valid credential and
a known receiver_id deletes that receiver's directory entry outright and
broadcasts the updated receiver list, but it does not discard the backlog:
`message_queue` is exactly unchanged, so anything queued under that id is
retained. -/
theorem c8_amended_unregister_keeps_backlog (s : Server) (key : Option String)
    (rid : String) (hk : authMissingOrInvalid s.apiKeys key = false)
    (hrid : rid ≠ "")
    (hmem : (alookup s.registeredReceivers rid).isSome = true) :
    handle_unregister_receiver s key (some rid)
      = ({ s with registeredReceivers := aerase s.registeredReceivers rid },
         [Event.receiverListUpdated
            ((aerase s.registeredReceivers rid).map (fun p => p.1)),
          Event.unregistrationConfirmed "Successfully unregistered"]) ∧
    (handle_unregister_receiver s key (some rid)).1.messageQueue
      = s.messageQueue := by
  obtain ⟨r, hr⟩ := Option.isSome_iff_exists.mp hmem
  constructor
  · unfold handle_unregister_receiver
    simp [hk, hrid, hr]
  · unfold handle_unregister_receiver
    simp [hk, hrid, hr]

/-- C8 witness: the amended theorem applied to the concrete server
`exServer`, valid key `k` and known receiver `r1`. -/
theorem c8_witness :
    authMissingOrInvalid exServer.apiKeys (some "k") = false ∧
    ("r1" : String) ≠ "" ∧
    (alookup exServer.registeredReceivers "r1").isSome = true ∧
    (handle_unregister_receiver exServer (some "k") (some "r1")).1.messageQueue
      = exServer.messageQueue :=
  ⟨by decide, by decide, by decide,
   (c8_amended_unregister_keeps_backlog exServer (some "k") "r1" (by decide)
     (by decide) (by decide)).2⟩

/-! C9 — the spec says every control operation gets an explicit
acknowledgement or failure; the code's `handle_stop_sending` emits nothing
at all when the generator is already stopped (src/streamosc.py lines
548-549 only log). -/

/-- C9 counterexample: on `exServer` the generator is stopped; a
`stop_sending` call with the valid key `k` returns with no emitted event
whatsoever — silence, contradicting the claim that a stop call while
already Stopped still yields an explicit response. -/
theorem c9_counterexample :
    handle_stop_sending exServer (some "k") = (exServer, []) := rfl

/-- C9 (amended): register, start, unregister and send_value always emit at
least one explicit response event, a successful send_value emits the
`osc_message` broadcast (which reaches the caller), and stop_sending emits
a response while the generator is running or on a failed credential — but
a stop_sending call with a valid credential while the generator is already
stopped emits nothing at all (silence is the outcome in exactly that
case). -/
theorem c9_amended_all_ops_respond_except_stop_while_stopped (s : Server)
    (cid name keyS newId : String) (d : StartData) (k1 k2 k3 : Option String)
    (rid : Option String) (addr : String) (v : Rat) (now : Nat) :
    (handle_register_receiver s cid name keyS newId).2 ≠ [] ∧
    (handle_start_sending s d).2 ≠ [] ∧
    (handle_unregister_receiver s k1 rid).2 ≠ [] ∧
    (handle_send_value s k2 addr v now).2 ≠ [] ∧
    (authMissingOrInvalid s.apiKeys k2 = false →
      Event.oscMessage ⟨addr, v, now⟩ ∈ (handle_send_value s k2 addr v now).2) ∧
    (s.isSending = true → (handle_stop_sending s k3).2 ≠ []) ∧
    (authMissingOrInvalid s.apiKeys k3 = false → s.isSending = false →
      handle_stop_sending s k3 = (s, [])) := by
  refine ⟨?_, ?_, ?_, ?_, ?_, ?_, ?_⟩
  · unfold handle_register_receiver
    split
    · simp
    · cases alookup s.connectionTracker cid <;> simp
  · unfold handle_start_sending
    split
    · simp
    · split
      · simp
      · split <;> simp
  · unfold handle_unregister_receiver
    split
    · simp
    · split <;> simp
  · unfold handle_send_value
    split <;> simp
  · intro hk
    unfold handle_send_value
    simp [hk]
  · intro hs
    unfold handle_stop_sending
    split
    · simp
    · simp [hs]
  · intro hk hs
    unfold handle_stop_sending
    simp [hk, hs]

/-- C9 witness: on the concrete `exServer`, a register call does respond,
while a valid-credential stop call with the generator already stopped
returns silence. -/
theorem c9_witness :
    (handle_register_receiver exServer "c1" "Display-1" "k" "r2").2 ≠ [] ∧
    handle_stop_sending exServer (some "k") = (exServer, []) :=
  ⟨(c9_amended_all_ops_respond_except_stop_while_stopped exServer "c1"
      "Display-1" "k" "r2" ⟨some "k", some "r1", [], [], none, none⟩
      (some "k") (some "k") (some "k") (some "r1") "/a" 1 7).1,
   (c9_amended_all_ops_respond_except_stop_while_stopped exServer "c1"
      "Display-1" "k" "r2" ⟨some "k", some "r1", [], [], none, none⟩
      (some "k") (some "k") (some "k") (some "r1") "/a" 1 7).2.2.2.2.2.2
     (by decide) (by decide)⟩

/-! C5 — an operation carrying an invalid (not-configured) credential never
mutates any server state. -/

theorem authMissingOrInvalid_of_not_contains (keys : List String)
    (k : Option String) (hk : keys.contains (k.getD "") = false) :
    authMissingOrInvalid keys k = true := by
  simp only [authMissingOrInvalid, hk, Bool.not_false, Bool.or_true]

/-- C5: every control operation (register_receiver, start_sending,
stop_sending, unregister_receiver, send_value) invoked with a credential
that is not in `API_KEYS` (including a missing credential, which defaults
to the empty string) is rejected with its failure event and returns the
server state exactly unchanged — `registered_receivers`, `is_sending`,
`destinations`, `current_addresses`, `interval_min`, `interval_max` and
`message_queue` are all byte-for-byte identical. -/
theorem c5_invalid_credential_never_mutates (s : Server) (k : Option String)
    (d : StartData) (cid name newId : String) (rid : Option String)
    (addr : String) (v : Rat) (now : Nat) (hd : d.apiKey = k)
    (hk : s.apiKeys.contains (k.getD "") = false) :
    handle_register_receiver s cid name (k.getD "") newId
      = (s, [Event.registrationFailed "Invalid API key"]) ∧
    handle_start_sending s d
      = (s, [Event.statusUpdate "error" "Unauthorized" s.isSending]) ∧
    handle_stop_sending s k
      = (s, [Event.statusUpdate "error" "Unauthorized" s.isSending]) ∧
    handle_unregister_receiver s k rid
      = (s, [Event.unregistrationFailed "Unauthorized"]) ∧
    handle_send_value s k addr v now
      = (s, [Event.sendFailed "Unauthorized"]) := by
  have ha : authMissingOrInvalid s.apiKeys k = true :=
    authMissingOrInvalid_of_not_contains _ _ hk
  refine ⟨?_, ?_, ?_, ?_, ?_⟩
  · have hc : (!(s.apiKeys.contains (k.getD ""))) = true := by
      rw [hk]
      rfl
    unfold handle_register_receiver
    rw [hc]
    simp
  · unfold handle_start_sending
    simp [hd, ha]
  · unfold handle_stop_sending
    simp [ha]
  · unfold handle_unregister_receiver
    simp [ha]
  · unfold handle_send_value
    simp [ha]

/-- C5 witness: the theorem applied to `exServer` and the invalid
credential `bad`. -/
theorem c5_witness :
    exServer.apiKeys.contains ((some "bad").getD "") = false ∧
    handle_send_value exServer (some "bad") "/a" 1 7
      = (exServer, [Event.sendFailed "Unauthorized"]) :=
  ⟨by decide,
   (c5_invalid_credential_never_mutates exServer (some "bad")
     ⟨some "bad", some "r1", [], [], none, none⟩ "c9" "n" "r2" (some "r1")
     "/a" 1 7 rfl (by decide)).2.2.2.2⟩

/-! C6 — starting while already running is a no-op. -/

/-- C6: with a valid credential and a known receiver id, calling
start_sending while `is_sending` is already true changes nothing — the
configuration and thread count are untouched and the caller gets the
single `info` "already in progress" status update; and two consecutive
starts from the stopped state (no intervening stop) leave exactly one
generator loop running. -/
theorem c6_duplicate_start_noop (s : Server) (d : StartData)
    (hk : authMissingOrInvalid s.apiKeys d.apiKey = false)
    (hrid : ¬(d.receiverId.getD "" = ""))
    (hmem : (alookup s.registeredReceivers (d.receiverId.getD "")).isSome
      = true) :
    (s.isSending = true →
      handle_start_sending s d
        = (s, [Event.statusUpdate "info"
            "OSC message sending already in progress" true])) ∧
    (s.isSending = false → s.sendThreads = 0 →
      (handle_start_sending (handle_start_sending s d).1 d).1.sendThreads = 1
        ∧
      (handle_start_sending (handle_start_sending s d).1 d).1.isSending
        = true) := by
  obtain ⟨r, hr⟩ := Option.isSome_iff_exists.mp hmem
  constructor
  · intro hs
    unfold handle_start_sending
    simp [hk, hrid, hr, hs]
  · intro hs ht
    have h1 : (handle_start_sending s d).1
        = { s with
            destinations := if d.destinations.isEmpty then s.destinations
              else d.destinations,
            currentAddresses := if d.addresses.isEmpty then
              s.currentAddresses else d.addresses,
            intervalMin := d.intervalMin.getD s.intervalMin,
            intervalMax := d.intervalMax.getD s.intervalMax,
            isSending := true,
            sendThreads := s.sendThreads + 1 } := by
      unfold handle_start_sending
      simp [hk, hrid, hr, hs]
    rw [h1]
    unfold handle_start_sending
    simp [hk, hrid, hr, ht]

/-- A running variant of `exServer` (one generator loop active). -/
def exRunning : Server := { exServer with isSending := true, sendThreads := 1 }

/-- C6 witness: a duplicate start on the running `exRunning` with the valid
key and known receiver `r1` responds `info` and changes nothing. -/
theorem c6_witness :
    authMissingOrInvalid exRunning.apiKeys (some "k") = false ∧
    handle_start_sending exRunning ⟨some "k", some "r1", [], [], none, none⟩
      = (exRunning, [Event.statusUpdate "info"
          "OSC message sending already in progress" true]) :=
  ⟨by decide,
   (c6_duplicate_start_noop exRunning ⟨some "k", some "r1", [], [], none, none⟩
     (by decide) (by decide) (by decide)).1 rfl⟩

/-! C3 — the bounded backlog: append plus oldest-eviction keeps at most
`MAX_QUEUE_SIZE` messages, and 101 publishes to an inactive receiver leave
exactly the last 100. -/

/-- The `message_data` of one `send_value` request:
(address, value, timestamp). -/
def mkMsg (it : String × Rat × Nat) : Msg := ⟨it.1, it.2.1, it.2.2⟩

/-- A sequence of `send_value` calls folded over the server state. -/
def sendSeq (s : Server) (key : Option String)
    (items : List (String × Rat × Nat)) : Server :=
  items.foldl (fun st it => (handle_send_value st key it.1 it.2.1 it.2.2).1) s

theorem handle_send_value_receivers (s : Server) (k : Option String)
    (a : String) (v : Rat) (n : Nat) :
    (handle_send_value s k a v n).1.registeredReceivers
      = s.registeredReceivers := by
  unfold handle_send_value
  split <;> rfl

theorem handle_send_value_apiKeys (s : Server) (k : Option String)
    (a : String) (v : Rat) (n : Nat) :
    (handle_send_value s k a v n).1.apiKeys = s.apiKeys := by
  unfold handle_send_value
  split <;> rfl

theorem fanout_single_inactive (rid : String) (r : Receiver)
    (mq : List (String × List Msg)) (m : Msg) (h : r.active = false) :
    fanout [(rid, r)] mq m
      = (aset mq rid (enqueueMsg ((alookup mq rid).getD []) m), []) := by
  simp [fanout, h]

theorem handle_send_value_queue_single (s : Server) (rid : String)
    (r : Receiver) (k : Option String) (a : String) (v : Rat) (n : Nat)
    (hrecv : s.registeredReceivers = [(rid, r)]) (hact : r.active = false)
    (hk : authMissingOrInvalid s.apiKeys k = false) :
    (handle_send_value s k a v n).1.messageQueue
      = aset s.messageQueue rid
          (enqueueMsg ((alookup s.messageQueue rid).getD []) ⟨a, v, n⟩) := by
  unfold handle_send_value
  rw [hk]
  simp [hrecv, fanout_single_inactive rid r s.messageQueue ⟨a, v, n⟩ hact]

theorem enqueueMsg_of_lt (q : List Msg) (m : Msg)
    (h : q.length < MAX_QUEUE_SIZE) : enqueueMsg q m = q ++ [m] := by
  have hn : ¬(MAX_QUEUE_SIZE < (q ++ [m]).length) := by
    have hl : (q ++ [m]).length = q.length + 1 := by simp
    rw [hl]
    omega
  show (if MAX_QUEUE_SIZE < (q ++ [m]).length then (q ++ [m]).tail
    else (q ++ [m])) = q ++ [m]
  rw [if_neg hn]

theorem enqueueMsg_of_eq (q : List Msg) (m : Msg)
    (h : q.length = MAX_QUEUE_SIZE) : enqueueMsg q m = q.tail ++ [m] := by
  have hlt : MAX_QUEUE_SIZE < (q ++ [m]).length := by
    have hl : (q ++ [m]).length = q.length + 1 := by simp
    rw [hl, h]
    exact Nat.lt_succ_self _
  show (if MAX_QUEUE_SIZE < (q ++ [m]).length then (q ++ [m]).tail
    else (q ++ [m])) = q.tail ++ [m]
  rw [if_pos hlt]
  cases q with
  | nil => simp [MAX_QUEUE_SIZE] at h
  | cons a t => simp

theorem foldl_enqueueMsg_eq_drop (ms : List Msg) (q : List Msg)
    (h : q.length ≤ MAX_QUEUE_SIZE) :
    List.foldl enqueueMsg q ms
      = (q ++ ms).drop (q.length + ms.length - MAX_QUEUE_SIZE) := by
  induction ms generalizing q with
  | nil =>
    have h0 : q.length - MAX_QUEUE_SIZE = 0 := by omega
    simp [h0]
  | cons m t ih =>
    rcases Nat.lt_or_ge q.length MAX_QUEUE_SIZE with hlt | hge
    · rw [List.foldl_cons, enqueueMsg_of_lt q m hlt,
        ih (q ++ [m]) (by simp only [List.length_append, List.length_cons,
          List.length_nil]; omega)]
      rw [List.append_assoc]
      congr 1
      simp only [List.length_append, List.length_cons, List.length_nil]
      omega
    · have heq : q.length = MAX_QUEUE_SIZE := le_antisymm h hge
      obtain ⟨a, q', rfl⟩ : ∃ a q', q = a :: q' := by
        cases q with
        | nil => simp [MAX_QUEUE_SIZE] at heq
        | cons a q' => exact ⟨a, q', rfl⟩
      have hlen : q'.length + 1 = MAX_QUEUE_SIZE := by
        simpa using heq
      calc List.foldl enqueueMsg (a :: q') (m :: t)
          = List.foldl enqueueMsg (q' ++ [m]) t := by
            rw [List.foldl_cons, enqueueMsg_of_eq _ _ heq]
            rfl
        _ = ((q' ++ [m]) ++ t).drop
              ((q' ++ [m]).length + t.length - MAX_QUEUE_SIZE) :=
            ih _ (by simp only [List.length_append, List.length_cons,
              List.length_nil]; omega)
        _ = (q' ++ m :: t).drop t.length := by
            rw [List.append_assoc]
            congr 1
            simp only [List.length_append, List.length_cons, List.length_nil]
            omega
        _ = (a :: (q' ++ m :: t)).drop (t.length + 1) := by
            rw [List.drop_succ_cons]
        _ = ((a :: q') ++ m :: t).drop
              ((a :: q').length + (m :: t).length - MAX_QUEUE_SIZE) := by
            rw [List.cons_append]
            congr 1
            simp only [List.length_cons]
            omega

theorem sendSeq_queue (items : List (String × Rat × Nat)) (s : Server)
    (k : Option String) (rid : String) (r : Receiver)
    (hrecv : s.registeredReceivers = [(rid, r)]) (hact : r.active = false)
    (hk : authMissingOrInvalid s.apiKeys k = false) :
    (alookup (sendSeq s k items).messageQueue rid).getD []
      = List.foldl enqueueMsg ((alookup s.messageQueue rid).getD [])
          (items.map mkMsg) := by
  induction items generalizing s with
  | nil => simp [sendSeq]
  | cons it t ih =>
    have hk' : authMissingOrInvalid
        (handle_send_value s k it.1 it.2.1 it.2.2).1.apiKeys k = false := by
      rw [handle_send_value_apiKeys]
      exact hk
    have hr' : (handle_send_value s k it.1 it.2.1 it.2.2).1.registeredReceivers
        = [(rid, r)] := by
      rw [handle_send_value_receivers]
      exact hrecv
    have hq : (handle_send_value s k it.1 it.2.1 it.2.2).1.messageQueue
        = aset s.messageQueue rid
            (enqueueMsg ((alookup s.messageQueue rid).getD [])
              ⟨it.1, it.2.1, it.2.2⟩) :=
      handle_send_value_queue_single s rid r k it.1 it.2.1 it.2.2 hrecv hact hk
    have hstep : sendSeq s k (it :: t)
        = sendSeq (handle_send_value s k it.1 it.2.1 it.2.2).1 k t := rfl
    rw [hstep, ih _ hr' hk', hq, alookup_aset_self]
    simp [mkMsg]

/-- C3: with a single inactive receiver `rid` registered and an empty
backlog to start from, after any sequence of valid `send_value` calls the
backlog under `rid` never holds more than `MAX_QUEUE_SIZE` (100) messages;
it always holds exactly the most recent 100 (the suffix of the published
messages), and after exactly 101 publishes it holds the last 100 with
message #1 evicted. -/
theorem c3_backlog_bounded (s : Server) (k : Option String) (rid : String)
    (r : Receiver) (items : List (String × Rat × Nat))
    (hrecv : s.registeredReceivers = [(rid, r)]) (hact : r.active = false)
    (hk : authMissingOrInvalid s.apiKeys k = false)
    (hq0 : alookup s.messageQueue rid = none) :
    ((alookup (sendSeq s k items).messageQueue rid).getD []).length
      ≤ MAX_QUEUE_SIZE ∧
    (alookup (sendSeq s k items).messageQueue rid).getD []
      = (items.map mkMsg).drop (items.length - MAX_QUEUE_SIZE) ∧
    (items.length = 101 →
      (alookup (sendSeq s k items).messageQueue rid).getD []
        = (items.map mkMsg).drop 1) := by
  have hq := sendSeq_queue items s k rid r hrecv hact hk
  rw [hq0] at hq
  simp only [Option.getD_none] at hq
  have hfold := foldl_enqueueMsg_eq_drop (items.map mkMsg) []
    (by simp [MAX_QUEUE_SIZE])
  simp only [List.nil_append, List.length_nil, Nat.zero_add] at hfold
  rw [hfold] at hq
  have hlenm : (items.map mkMsg).length = items.length := List.length_map _ _
  refine ⟨?_, ?_, ?_⟩
  · rw [hq, List.length_drop, hlenm]
    simp [MAX_QUEUE_SIZE]
    omega
  · rw [hq, hlenm]
  · intro h101
    rw [hq, hlenm, h101]
    rfl

/-- The receiver `r1` in its would-be inactive form (the `active = false`
branch of the fan-out). -/
def exInactiveReceiver : Receiver := ⟨"Display-1", "c1", "k", "t0", false, "c1"⟩

/-- A server whose only directory entry is the inactive `r1` with an empty
backlog. -/
def exServerInactive : Server :=
  { exServer with
      registeredReceivers := [("r1", exInactiveReceiver)],
      messageQueue := [] }

/-- The inputs of 101 consecutive `send_value` calls. -/
def exItems : List (String × Rat × Nat) :=
  (List.range 101).map (fun i => ("/mass/tile1", 1, i))

/-- C3 witness: the theorem applied to the concrete inactive receiver `r1`
and 101 concrete publishes. -/
theorem c3_witness :
    exServerInactive.registeredReceivers = [("r1", exInactiveReceiver)] ∧
    exInactiveReceiver.active = false ∧
    authMissingOrInvalid exServerInactive.apiKeys (some "k") = false ∧
    alookup exServerInactive.messageQueue "r1" = none ∧
    (exItems.length = 101 →
      (alookup (sendSeq exServerInactive (some "k") exItems).messageQueue
        "r1").getD [] = (exItems.map mkMsg).drop 1) :=
  ⟨rfl, rfl, by decide, rfl,
   (c3_backlog_bounded exServerInactive (some "k") "r1" exInactiveReceiver
     exItems rfl rfl (by decide) rfl).2.2⟩

/-! C10 — in every reachable state every directory entry has
`active = true`: registration stores `active = True`, nothing ever flips it
to `False` (disconnect and the sweep delete entries instead), so the
inactive branch of the fan-out is dead code on reachable states. -/

theorem handle_start_sending_receivers (s : Server) (d : StartData) :
    (handle_start_sending s d).1.registeredReceivers
      = s.registeredReceivers := by
  unfold handle_start_sending
  split
  · rfl
  · split
    · rfl
    · split <;> rfl

theorem handle_stop_sending_receivers (s : Server) (k : Option String) :
    (handle_stop_sending s k).1.registeredReceivers
      = s.registeredReceivers := by
  unfold handle_stop_sending
  split
  · rfl
  · split <;> rfl

theorem handle_ping_receivers (s : Server) (cid : String) (now : Nat) :
    (handle_ping s cid now).registeredReceivers = s.registeredReceivers := by
  unfold handle_ping
  cases alookup s.connectionTracker cid <;> rfl

theorem generatorIteration_receivers (s : Server) (addr : String)
    (now : Nat) :
    (generatorIteration s addr now).1.registeredReceivers
      = s.registeredReceivers := rfl

/-- Every entry of the directory carries `active = true`. -/
def AllActive (rs : List (String × Receiver)) : Prop :=
  ∀ p ∈ rs, p.2.active = true

theorem allActive_filter (rs : List (String × Receiver))
    (f : String × Receiver → Bool) (h : AllActive rs) :
    AllActive (rs.filter f) := by
  intro p hp
  exact h p (List.mem_of_mem_filter hp)

theorem allActive_aset_active (rs : List (String × Receiver)) (k : String)
    (r : Receiver) (hr : r.active = true) (h : AllActive rs) :
    AllActive (aset rs k r) := by
  intro p hp
  rcases mem_aset rs k r p hp with hp' | hp'
  · exact h p hp'
  · rw [hp']
    exact hr

theorem allActive_aerase (rs : List (String × Receiver)) (k : String)
    (h : AllActive rs) : AllActive (aerase rs k) := by
  intro p hp
  exact h p (mem_aerase rs k p hp)

theorem handle_register_receiver_allActive (s : Server)
    (cid name apiKey newId : String) (h : AllActive s.registeredReceivers) :
    AllActive (handle_register_receiver s cid name apiKey newId).1.registeredReceivers := by
  unfold handle_register_receiver
  split
  · exact h
  · cases alookup s.connectionTracker cid with
    | none => exact h
    | some ci =>
      exact allActive_aset_active s.registeredReceivers newId _ rfl h

theorem handle_unregister_receiver_allActive (s : Server)
    (k rid : Option String) (h : AllActive s.registeredReceivers) :
    AllActive (handle_unregister_receiver s k rid).1.registeredReceivers := by
  unfold handle_unregister_receiver
  split
  · exact h
  · split
    · exact h
    · exact allActive_aerase s.registeredReceivers _ h

theorem step_preserves_allActive (s s' : Server) (hstep : Step s s')
    (h : AllActive s.registeredReceivers) :
    AllActive s'.registeredReceivers := by
  cases hstep with
  | connect cid iso now => exact h
  | disconnect cid => exact allActive_filter _ _ h
  | ping cid now =>
    rw [handle_ping_receivers]
    exact h
  | register cid name key newId =>
    exact handle_register_receiver_allActive s cid name key newId h
  | unregister key rid =>
    exact handle_unregister_receiver_allActive s key rid h
  | start d =>
    rw [handle_start_sending_receivers]
    exact h
  | stop key =>
    rw [handle_stop_sending_receivers]
    exact h
  | sendValue key addr v now =>
    rw [handle_send_value_receivers]
    exact h
  | generate addr now =>
    rw [generatorIteration_receivers]
    exact h
  | sweep now => exact allActive_filter _ _ h

theorem fanout_all_active (rs : List (String × Receiver))
    (mq : List (String × List Msg)) (m : Msg) (h : AllActive rs) :
    (fanout rs mq m).1 = mq := by
  induction rs generalizing mq with
  | nil => rfl
  | cons hd t ih =>
    obtain ⟨rid, r⟩ := hd
    have hr : r.active = true := h (rid, r) (List.mem_cons_self _ _)
    have ht : AllActive t := fun p hp => h p (List.mem_cons_of_mem _ hp)
    simp [fanout, hr, ih mq ht]

/-- C10: in every reachable server state, every entry of
`registered_receivers` has `active = true` (registration stores
`active = True` and no operation ever sets it to `False`; disconnect and
the staleness sweep delete entries instead), and consequently the inactive
branch of the message fan-out is never taken: fanning any message out over
a reachable directory leaves `message_queue` exactly unchanged. -/
theorem c10_directory_always_active (keys : List String) (s : Server)
    (h : Reachable keys s) :
    AllActive s.registeredReceivers ∧
    ∀ m, (fanout s.registeredReceivers s.messageQueue m).1
      = s.messageQueue := by
  have hact : AllActive s.registeredReceivers := by
    induction h with
    | init =>
      intro p hp
      simp [initServer] at hp
    | step s s' hr hstep ih => exact step_preserves_allActive s s' hstep ih
  exact ⟨hact, fun m => fanout_all_active _ _ m hact⟩

/-- A concrete reachable state with one registered receiver: fresh server,
then a connect and a successful registration. -/
def regState : Server :=
  (handle_register_receiver (handle_connect (initServer ["k"]) "c1" "t0" 0).1
    "c1" "Display-1" "k" "r1").1

/-- C10 witness: the reachability hypothesis discharged by the explicit
chain init → connect → register, and the invariant evaluated on the
resulting concrete state. -/
theorem c10_witness :
    Reachable ["k"] regState ∧
    (AllActive regState.registeredReceivers ∧
      ∀ m, (fanout regState.registeredReceivers regState.messageQueue m).1
        = regState.messageQueue) :=
  ⟨Reachable.step _ _
     (Reachable.step _ _ (Reachable.init)
       (Step.connect (initServer ["k"]) "c1" "t0" 0))
     (Step.register (handle_connect (initServer ["k"]) "c1" "t0" 0).1 "c1"
       "Display-1" "k" "r1"),
   c10_directory_always_active ["k"] regState
     (Reachable.step _ _
       (Reachable.step _ _ (Reachable.init)
         (Step.connect (initServer ["k"]) "c1" "t0" 0))
       (Step.register (handle_connect (initServer ["k"]) "c1" "t0" 0).1 "c1"
         "Display-1" "k" "r1"))⟩

/-! C7 — stop_sending synchronisation.  The generator loop
(src/streamosc.py lines 228-266) repeatedly checks `while is_sending:` and,
when the flag is up, publishes one message; `handle_stop_sending` (lines
537-543) clears `is_sending`, blocks in `send_thread.join()` until the
loop function has returned, and only then emits the `stopped`
acknowledgement.  We model the two threads as a small interleaving system
over a shared `sending` flag and an observable trace of publish/ack
events; `join` is the guard that the stop handler can emit its
acknowledgement only once the loop has terminated. -/

namespace StopModel

/-- Observable events: a message published by the loop body, and the
`stopped` acknowledgement emitted by the stop handler. -/
inductive SEv where
  | pub
  | ack
  deriving DecidableEq, Repr

/-- Program counter of the `send_random_osc_messages` loop: about to test
`while is_sending`, inside the loop body about to publish, or returned. -/
inductive LoopPC where
  | check
  | publishing
  | dead
  deriving DecidableEq, Repr

/-- Program counter of the running `handle_stop_sending` call: about to
execute `is_sending = False`, blocked in `send_thread.join()`, or past the
final `emit`. -/
inductive StopPC where
  | setFlag
  | joining
  | emitted
  deriving DecidableEq, Repr

/-- A configuration of the two threads: the shared `is_sending` flag, the
two program counters, and the trace of observable events so far. -/
structure Config where
  sending : Bool
  loopPC : LoopPC
  stopPC : StopPC
  trace : List SEv
  deriving DecidableEq, Repr

/-- Interleaved small steps of the loop thread and the stop handler.  The
loop exits exactly when it reads `sending = false` at the `while` test;
the stop handler's acknowledgement step is guarded by loop termination,
which is what `send_thread.join()` enforces. -/
inductive SStep : Config → Config → Prop where
  | loopCheckTrue (c : Config) (h1 : c.loopPC = LoopPC.check)
      (h2 : c.sending = true) :
      SStep c { c with loopPC := LoopPC.publishing }
  | loopCheckFalse (c : Config) (h1 : c.loopPC = LoopPC.check)
      (h2 : c.sending = false) :
      SStep c { c with loopPC := LoopPC.dead }
  | loopPublish (c : Config) (h1 : c.loopPC = LoopPC.publishing) :
      SStep c { c with loopPC := LoopPC.check, trace := c.trace ++ [SEv.pub] }
  | stopSet (c : Config) (h1 : c.stopPC = StopPC.setFlag) :
      SStep c { c with sending := false, stopPC := StopPC.joining }
  | stopJoin (c : Config) (h1 : c.stopPC = StopPC.joining)
      (h2 : c.loopPC = LoopPC.dead) :
      SStep c { c with stopPC := StopPC.emitted, trace := c.trace ++ [SEv.ack] }

/-- Configurations reachable from a running generator (the loop at its
`while` test or mid-body) at the moment a valid stop request arrives. -/
inductive SReach : Config → Prop where
  | initCheck : SReach ⟨true, LoopPC.check, StopPC.setFlag, []⟩
  | initPublishing : SReach ⟨true, LoopPC.publishing, StopPC.setFlag, []⟩
  | step (c c' : Config) : SReach c → SStep c c' → SReach c'

/-- No publish event occurs anywhere after the first acknowledgement in
the trace. -/
def noPubAfterAck : List SEv → Bool
  | [] => true
  | SEv.ack :: t => !(t.contains SEv.pub)
  | SEv.pub :: t => noPubAfterAck t

theorem noPubAfterAck_append_pub (tr : List SEv) (h : SEv.ack ∉ tr) :
    noPubAfterAck (tr ++ [SEv.pub]) = true := by
  induction tr with
  | nil => rfl
  | cons e t ih =>
    cases e with
    | pub =>
      have ht : SEv.ack ∉ t := fun hc => h (List.mem_cons_of_mem _ hc)
      simpa [noPubAfterAck] using ih ht
    | ack => exact absurd (List.mem_cons_self _ _) h

theorem noPubAfterAck_append_ack (tr : List SEv)
    (h : noPubAfterAck tr = true) :
    noPubAfterAck (tr ++ [SEv.ack]) = true := by
  induction tr with
  | nil => rfl
  | cons e t ih =>
    cases e with
    | pub =>
      have ht : noPubAfterAck t = true := by simpa [noPubAfterAck] using h
      simpa [noPubAfterAck] using ih ht
    | ack =>
      simp [noPubAfterAck] at h ⊢
      exact h

theorem sstep_preserves_noPubAfterAck (c c' : Config) (hs : SStep c c')
    (h : noPubAfterAck c.trace = true ∧
      (SEv.ack ∈ c.trace → c.loopPC = LoopPC.dead)) :
    noPubAfterAck c'.trace = true ∧
    (SEv.ack ∈ c'.trace → c'.loopPC = LoopPC.dead) := by
  obtain ⟨h1, h2⟩ := h
  cases hs with
  | loopCheckTrue hlp hsend =>
    refine ⟨h1, ?_⟩
    intro hack
    have hd := h2 hack
    rw [hlp] at hd
    simp at hd
  | loopCheckFalse hlp hsend => exact ⟨h1, fun _ => rfl⟩
  | loopPublish hlp =>
    have hack : SEv.ack ∉ c.trace := by
      intro hm
      have hd := h2 hm
      rw [hlp] at hd
      simp at hd
    refine ⟨noPubAfterAck_append_pub c.trace hack, ?_⟩
    intro hmem
    rcases List.mem_append.mp hmem with hm | hm
    · exact absurd hm hack
    · simp at hm
  | stopSet hsp => exact ⟨h1, h2⟩
  | stopJoin hsp hlp =>
    exact ⟨noPubAfterAck_append_ack c.trace h1, fun _ => hlp⟩

/-- C7: in every configuration reachable from a running generator and an
in-flight valid stop request, the observable trace never contains a
publish after the `stopped` acknowledgement, and once the acknowledgement
has been emitted the generator loop has already terminated — `join`-ing
the thread before emitting makes stop synchronous with loop exit. -/
theorem c7_no_publish_after_stop_ack (c : Config) (h : SReach c) :
    noPubAfterAck c.trace = true ∧
    (SEv.ack ∈ c.trace → c.loopPC = LoopPC.dead) := by
  induction h with
  | initCheck => exact ⟨rfl, by simp⟩
  | initPublishing => exact ⟨rfl, by simp⟩
  | step c c' hr hs ih => exact sstep_preserves_noPubAfterAck c c' hs ih

/-- Initial configuration: generator running at the `while` test, stop
handler about to clear the flag. -/
def c7c0 : Config := ⟨true, LoopPC.check, StopPC.setFlag, []⟩

/-- After `is_sending = False`. -/
def c7c1 : Config := ⟨false, LoopPC.check, StopPC.joining, []⟩

/-- After the loop reads the lowered flag and returns. -/
def c7c2 : Config := ⟨false, LoopPC.dead, StopPC.joining, []⟩

/-- After `join()` returns and the acknowledgement is emitted. -/
def c7c3 : Config := ⟨false, LoopPC.dead, StopPC.emitted, [SEv.ack]⟩

/-- C7 witness: the reachability hypothesis discharged on the explicit
run stop-flag → loop-exit → join-and-acknowledge, whose trace is the
single acknowledgement. -/
theorem c7_witness :
    SReach c7c3 ∧ noPubAfterAck c7c3.trace = true := by
  have h1 : SStep c7c0 c7c1 := SStep.stopSet c7c0 rfl
  have h2 : SStep c7c1 c7c2 := SStep.loopCheckFalse c7c1 rfl rfl
  have h3 : SStep c7c2 c7c3 := SStep.stopJoin c7c2 rfl rfl
  have hr : SReach c7c3 :=
    SReach.step _ _ (SReach.step _ _ (SReach.step _ _ SReach.initCheck h1) h2)
      h3
  exact ⟨hr, (c7_no_publish_after_stop_ack c7c3 hr).1⟩

end StopModel

end StreamOSC
